import Mathlib

/-!
# Nuxeo Drive shell icon-overlay extension: COM plumbing

A shallow embedding of the DLL entry points (`DllMain.cpp`), the class factory
(`DriveOverlayFactory.cpp`) and the message holder (`DriveMessage.cpp`).

* 32-bit `long` values are integers; the interlocked operations wrap at the
  ends of the `long` range.
* The heap of factory objects is a list of slots indexed by address; a freed
  slot is `none`.  Calling a method through a dangling pointer is undefined
  behaviour and is modelled by `none`.
* Windows API calls and the registration helpers whose bodies are not part of
  these sources are outcomes supplied by an `Env`.
-/

namespace NuxeoDrive

set_option linter.unusedVariables false

/-! ## Windows scalar types and result codes -/

/-- HRESULT is a signed 32-bit result code. -/
abbrev HRESULT := Int

/-- Largest value of a 32-bit `long`. -/
def LONG_MAX : Int := 2147483647

/-- Smallest value of a 32-bit `long`. -/
def LONG_MIN : Int := -2147483648

/-- The 32-bit two's-complement `long` that holds the integer `z`. -/
def toLong (z : Int) : Int := (z + 2147483648) % 4294967296 - 2147483648

/-- Conversion of a `long` to the unsigned 32-bit `ULONG`. -/
def toULONG (z : Int) : Int := z % 4294967296

/-- Windows `InterlockedIncrement` on a `long`: adds one (wrapping) and yields the new value. -/
def InterlockedIncrement (x : Int) : Int := toLong (x + 1)

/-- Windows `InterlockedDecrement` on a `long`: subtracts one (wrapping) and yields the new value. -/
def InterlockedDecrement (x : Int) : Int := toLong (x - 1)

/-- Windows SDK value 0x00000000. -/
def S_OK : HRESULT := 0

/-- Windows SDK value 0x00000001. -/
def S_FALSE : HRESULT := 1

/-- Windows SDK value 0x80004002. -/
def E_NOINTERFACE : HRESULT := -2147467262

/-- Windows SDK value 0x8007000E. -/
def E_OUTOFMEMORY : HRESULT := -2147024882

/-- Windows SDK value 0x80040110. -/
def CLASS_E_NOAGGREGATION : HRESULT := -2147221232

/-- Windows SDK value 0x80040111. -/
def CLASS_E_CLASSNOTAVAILABLE : HRESULT := -2147221231

/-- Windows SDK macro `FAILED(hr)`: the severity bit is set. -/
def FAILED (hr : HRESULT) : Bool := decide (hr < 0)

/-- Windows SDK macro `HRESULT_FROM_WIN32(x)` on a DWORD error code:
`(HRESULT)x <= 0 ? (HRESULT)x : (x & 0xFFFF) | (FACILITY_WIN32 << 16) | 0x80000000`. -/
def HRESULT_FROM_WIN32 (x : Nat) : HRESULT :=
  if toLong (Int.ofNat (x % 4294967296)) ≤ 0 then toLong (Int.ofNat (x % 4294967296))
  else toLong (Int.ofNat (x % 65536 + 7 * 65536 + 2147483648))

/-! ## GUIDs and constants -/

/-- A 128-bit GUID with the field layout of `Guiddef.h`. -/
structure GUID where
  Data1 : Nat
  Data2 : Nat
  Data3 : Nat
  Data4 : List Nat
deriving DecidableEq, Repr

/-- The Windows SDK `IsEqualCLSID` compares the 128 bits. -/
def IsEqualCLSID (a b : GUID) : Bool := decide (a = b)

/-- The Windows SDK `IsEqualIID` compares the 128 bits. -/
def IsEqualIID (a b : GUID) : Bool := decide (a = b)

/-- Windows SDK `IID_IUnknown`, 00000000-0000-0000-C000-000000000046. -/
def IID_IUnknown : GUID :=
  { Data1 := 0, Data2 := 0, Data3 := 0, Data4 := [0xC0, 0, 0, 0, 0, 0, 0, 0x46] }

/-- Windows SDK `IID_IClassFactory`, 00000001-0000-0000-C000-000000000046. -/
def IID_IClassFactory : GUID :=
  { Data1 := 1, Data2 := 0, Data3 := 0, Data4 := [0xC0, 0, 0, 0, 0, 0, 0, 0x46] }

/-- From `OverlayConstants.h`: the CLSID string of the extension. -/
def OVERLAY_GUID : String := "\x7b63445D75-24C6-40E3-9F4F-073C7FAE6899\x7d"

/-- From `OverlayConstants.h`: the overlay identifier name. -/
def OVERLAY_NAME : String := "DriveUnsyncedOverlay"

/-- The GUID that the string `OVERLAY_GUID` spells. -/
def OVERLAY_CLSID : GUID :=
  { Data1 := 0x63445D75, Data2 := 0x24C6, Data3 := 0x40E3,
    Data4 := [0x9F, 0x4F, 0x07, 0x3C, 0x7F, 0xAE, 0x68, 0x99] }

/-! ## Process state -/

/-- A pointer value: `NULL` or the address of a heap slot. -/
inductive Ptr where
  | null
  | addr (a : Nat)
deriving DecidableEq, Repr

/-- The data member of `DriveOverlayFactory` that the sources use
(`_path` is declared but never written or read). -/
structure DriveOverlayFactory where
  _referenceCount : Int
deriving DecidableEq, Repr

/-- The global `dllReferenceCount` of `DllMain.cpp` and the heap of factory objects. -/
structure Process where
  dllReferenceCount : Int
  heap : List (Option DriveOverlayFactory)
deriving DecidableEq, Repr

/-- State at load time: `long dllReferenceCount = 0;` and no objects. -/
def Process.initial : Process := { dllReferenceCount := 0, heap := [] }

/-- The live factory object at address `this`, if any. -/
def Process.factory (p : Process) (this : Nat) : Option DriveOverlayFactory :=
  match p.heap.get? this with
  | some (some f) => some f
  | _ => none

/-- Number of live factory objects. -/
def Process.liveFactories (p : Process) : Nat :=
  p.heap.countP Option.isSome

/-- Store into the object at `this`. -/
def Process.store (p : Process) (this : Nat) (f : DriveOverlayFactory) : Process :=
  { p with heap := p.heap.set this (some f) }

/-! ## DriveOverlayFactory.cpp -/

/-- The expression `new DriveOverlayFactory(path)`: a fresh object whose constructor sets
`_referenceCount(1)` and runs `InterlockedIncrement(&dllReferenceCount)`. -/
def DriveOverlayFactory.construct (_path : String) (p : Process) : Nat × Process :=
  (p.heap.length,
   { dllReferenceCount := InterlockedIncrement p.dllReferenceCount,
     heap := p.heap ++ [some { _referenceCount := 1 }] })

/-- The statement `delete this`: the destructor runs `InterlockedDecrement(&dllReferenceCount)`
and the slot is freed. -/
def DriveOverlayFactory.destroy (this : Nat) (p : Process) : Option Process :=
  match p.factory this with
  | none => none
  | some _ =>
    some { dllReferenceCount := InterlockedDecrement p.dllReferenceCount,
           heap := p.heap.set this none }

/-- Function `DriveOverlayFactory::AddRef`. -/
def DriveOverlayFactory.AddRef (this : Nat) (p : Process) : Option (Int × Process) :=
  match p.factory this with
  | none => none
  | some f =>
    let c := InterlockedIncrement f._referenceCount
    some (toULONG c, p.store this { f with _referenceCount := c })

/-- Function `DriveOverlayFactory::Release`. -/
def DriveOverlayFactory.Release (this : Nat) (p : Process) : Option (Int × Process) :=
  match p.factory this with
  | none => none
  | some f =>
    let c := InterlockedDecrement f._referenceCount
    let p1 := p.store this { f with _referenceCount := c }
    let cRef := toULONG c
    if 0 = cRef then
      match DriveOverlayFactory.destroy this p1 with
      | none => none
      | some p2 => some (cRef, p2)
    else some (cRef, p1)

/-- Function `DriveOverlayFactory::QueryInterface`; the middle component is the store
made to `*ppv` (`none` when nothing is stored). -/
def DriveOverlayFactory.QueryInterface (this : Nat) (riid : GUID) (p : Process) :
    Option (HRESULT × Option Ptr × Process) :=
  match p.factory this with
  | none => none
  | some _ =>
    if IsEqualIID IID_IUnknown riid || IsEqualIID IID_IClassFactory riid then
      match DriveOverlayFactory.AddRef this p with
      | none => none
      | some (_, p1) => some (S_OK, some (Ptr.addr this), p1)
    else
      some (E_NOINTERFACE, some Ptr.null, p)

/-- Function `DriveOverlayFactory::LockServer`; `fLock` is a `BOOL`, that is an `int`. -/
def DriveOverlayFactory.LockServer (this : Nat) (fLock : Int) (p : Process) :
    Option (HRESULT × Process) :=
  match p.factory this with
  | none => none
  | some _ =>
    if fLock ≠ 0 then
      some (S_OK, { p with dllReferenceCount := InterlockedIncrement p.dllReferenceCount })
    else
      some (S_OK, { p with dllReferenceCount := InterlockedDecrement p.dllReferenceCount })

/-! ## DllMain.cpp -/

/-- Function `DllCanUnloadNow`: `return dllReferenceCount > 0 ? S_FALSE : S_OK;`. -/
def DllCanUnloadNow (p : Process) : HRESULT :=
  if p.dllReferenceCount > 0 then S_FALSE else S_OK

/-- Outcomes of the calls whose bodies are outside these sources: the Windows
API (`GetModuleFileName`, `GetLastError`, `CLSIDFromString`) and the four static
functions declared in `DriveOverlayRegistrationHandler.h`. -/
structure Env where
  /-- Return value of `GetModuleFileName`; zero reports failure. -/
  GetModuleFileName : Nat
  /-- Contents of the buffer `szModule` after the call. -/
  szModule : String
  /-- Value of `GetLastError()`. -/
  GetLastError : Nat
  /-- Result code and the GUID written by `CLSIDFromString`. -/
  CLSIDFromString : String → HRESULT × GUID
  RegisterCOMObject : String → GUID → HRESULT
  MakeRegistryEntries : GUID → String → HRESULT
  UnregisterCOMObject : GUID → HRESULT
  RemoveRegistryEntries : String → HRESULT

/-- An outgoing call made by a registration entry point, with its arguments. -/
inductive Call where
  | GetModuleFileName
  | GetLastError
  | CLSIDFromString (s : String)
  | RegisterCOMObject (modulePath : String) (clsid : GUID)
  | MakeRegistryEntries (clsid : GUID) (fileType : String)
  | UnregisterCOMObject (clsid : GUID)
  | RemoveRegistryEntries (friendlyName : String)
deriving DecidableEq, Repr

/-- Function `DllGetClassObject(rclsid, riid, ppv)`; the middle component of the result is
the store made to `*ppv` (`none` when nothing is stored). -/
def DllGetClassObject (env : Env) (rclsid riid : GUID) (p : Process) :
    Option (HRESULT × Option Ptr × Process) :=
  let hResult : HRESULT := CLASS_E_CLASSNOTAVAILABLE
  let hResult : HRESULT := (env.CLSIDFromString OVERLAY_GUID).1
  let guid : GUID := (env.CLSIDFromString OVERLAY_GUID).2
  if hResult ≠ S_OK then
    some (hResult, none, p)
  else if !IsEqualCLSID guid rclsid then
    some (hResult, none, p)
  else
    let hResult : HRESULT := E_OUTOFMEMORY
    if env.GetModuleFileName = 0 then
      let hResult : HRESULT := HRESULT_FROM_WIN32 env.GetLastError
      some (hResult, none, p)
    else
      -- plain `new` never yields a null pointer, so `if (driveOverlayFactory)` is taken
      let (driveOverlayFactory, p1) := DriveOverlayFactory.construct env.szModule p
      match DriveOverlayFactory.QueryInterface driveOverlayFactory riid p1 with
      | none => none
      | some (hResult, ppv, p2) =>
        match DriveOverlayFactory.Release driveOverlayFactory p2 with
        | none => none
        | some (_, p3) => some (hResult, ppv, p3)

/-- Function `DllRegisterServer`: the result code and the calls made, in order. -/
def DllRegisterServer (env : Env) : HRESULT × List Call :=
  let hResult : HRESULT := S_OK
  if env.GetModuleFileName = 0 then
    let hResult : HRESULT := HRESULT_FROM_WIN32 env.GetLastError
    (hResult, [Call.GetModuleFileName, Call.GetLastError])
  else
    let hResult : HRESULT := (env.CLSIDFromString OVERLAY_GUID).1
    let guid : GUID := (env.CLSIDFromString OVERLAY_GUID).2
    if hResult ≠ S_OK then
      (hResult, [Call.GetModuleFileName, Call.CLSIDFromString OVERLAY_GUID])
    else
      let hResult : HRESULT := env.RegisterCOMObject env.szModule guid
      if FAILED hResult then
        (hResult, [Call.GetModuleFileName, Call.CLSIDFromString OVERLAY_GUID,
                   Call.RegisterCOMObject env.szModule guid])
      else
        let hResult : HRESULT := env.MakeRegistryEntries guid OVERLAY_NAME
        if FAILED hResult then
          (hResult, [Call.GetModuleFileName, Call.CLSIDFromString OVERLAY_GUID,
                     Call.RegisterCOMObject env.szModule guid,
                     Call.MakeRegistryEntries guid OVERLAY_NAME])
        else
          (hResult, [Call.GetModuleFileName, Call.CLSIDFromString OVERLAY_GUID,
                     Call.RegisterCOMObject env.szModule guid,
                     Call.MakeRegistryEntries guid OVERLAY_NAME])

/-- Function `DllUnregisterServer`: the result code and the calls made, in order. -/
def DllUnregisterServer (env : Env) : HRESULT × List Call :=
  let hResult : HRESULT := S_OK
  if env.GetModuleFileName = 0 then
    let hResult : HRESULT := HRESULT_FROM_WIN32 env.GetLastError
    (hResult, [Call.GetModuleFileName, Call.GetLastError])
  else
    let hResult : HRESULT := (env.CLSIDFromString OVERLAY_GUID).1
    let guid : GUID := (env.CLSIDFromString OVERLAY_GUID).2
    if hResult ≠ S_OK then
      (hResult, [Call.GetModuleFileName, Call.CLSIDFromString OVERLAY_GUID])
    else
      let hResult : HRESULT := env.UnregisterCOMObject guid
      if FAILED hResult then
        (hResult, [Call.GetModuleFileName, Call.CLSIDFromString OVERLAY_GUID,
                   Call.UnregisterCOMObject guid])
      else
        let hResult : HRESULT := env.RemoveRegistryEntries OVERLAY_NAME
        if FAILED hResult then
          (hResult, [Call.GetModuleFileName, Call.CLSIDFromString OVERLAY_GUID,
                     Call.UnregisterCOMObject guid,
                     Call.RemoveRegistryEntries OVERLAY_NAME])
        else
          (hResult, [Call.GetModuleFileName, Call.CLSIDFromString OVERLAY_GUID,
                     Call.UnregisterCOMObject guid,
                     Call.RemoveRegistryEntries OVERLAY_NAME])

/-! ## DriveOverlayFactory::CreateInstance -/

/-- The class `NuxeoDriveOverlay` is declared in `NuxeoDriveOverlay.h`, outside
these sources; its three operations used by `CreateInstance` are parameters.
They act on the process together with the overlay objects' own state `σ`. -/
structure NuxeoDriveOverlayClass (σ : Type) where
  /-- Outcome of `new(std::nothrow) NuxeoDriveOverlay()`: `none` is a null pointer. -/
  construct : Process × σ → Option (Nat × (Process × σ))
  /-- Result code, store made to `*ppv`, new state. -/
  QueryInterface : Nat → GUID → Process × σ → HRESULT × Option Ptr × (Process × σ)
  Release : Nat → Process × σ → Process × σ

/-- Function `DriveOverlayFactory::CreateInstance(pUnkOuter, riid, ppv)`. -/
def DriveOverlayFactory.CreateInstance {σ : Type} (cls : NuxeoDriveOverlayClass σ)
    (this : Nat) (pUnkOuter : Ptr) (riid : GUID) (w : Process × σ) :
    Option (HRESULT × Option Ptr × (Process × σ)) :=
  match w.1.factory this with
  | none => none
  | some _ =>
    let hResult : HRESULT := CLASS_E_NOAGGREGATION
    if pUnkOuter ≠ Ptr.null then
      some (hResult, none, w)
    else
      let hResult : HRESULT := E_OUTOFMEMORY
      match cls.construct w with
      | none => some (hResult, none, w)
      | some (lrOverlay, w1) =>
        let (hResult, ppv, w2) := cls.QueryInterface lrOverlay riid w1
        let w3 := cls.Release lrOverlay w2
        some (hResult, ppv, w3)

/-! ## DriveMessage.cpp -/

/-- A `std::wstring` as its sequence of code units. -/
abbrev wstring := List Nat

/-- The free store of `std::wstring` objects, indexed by address. -/
abbrev StringHeap := List wstring

/-- The expression `new wstring()`: a fresh empty string. -/
def newWstring (h : StringHeap) : Ptr × StringHeap := (Ptr.addr h.length, h ++ [[]])

/-- The string a pointer designates. -/
def StringHeap.deref (h : StringHeap) : Ptr → Option wstring
  | Ptr.null => none
  | Ptr.addr a => h.get? a

/-- The two pointer members of `DriveMessage`. -/
structure DriveMessage where
  _command : Ptr
  _value : Ptr
deriving DecidableEq, Repr

/-- Function `DriveMessage::DriveMessage`. -/
def DriveMessage.construct (h : StringHeap) : DriveMessage × StringHeap :=
  let (command, h1) := newWstring h
  let (value, h2) := newWstring h1
  ({ _command := command, _value := value }, h2)

/-- Function `DriveMessage::GetCommand`. -/
def DriveMessage.GetCommand (m : DriveMessage) : Ptr := m._command

/-- Function `DriveMessage::GetValue`. -/
def DriveMessage.GetValue (m : DriveMessage) : Ptr := m._value

/-- Function `DriveMessage::SetCommand`. -/
def DriveMessage.SetCommand (m : DriveMessage) (command : Ptr) : DriveMessage :=
  { m with _command := command }

/-- Function `DriveMessage::SetValue`. -/
def DriveMessage.SetValue (m : DriveMessage) (value : Ptr) : DriveMessage :=
  { m with _value := value }

/-! ## Sequences of count-changing operations -/

/-- The operations that touch `dllReferenceCount`. -/
inductive Op where
  | construct (path : String)
  | destroy (this : Nat)
  | LockServer (this : Nat) (fLock : Int)
deriving DecidableEq, Repr

/-- One operation; `none` when it goes through a dangling pointer. -/
def Op.step (p : Process) : Op → Option Process
  | Op.construct path => some (DriveOverlayFactory.construct path p).2
  | Op.destroy this => DriveOverlayFactory.destroy this p
  | Op.LockServer this fLock =>
    match DriveOverlayFactory.LockServer this fLock p with
    | none => none
    | some (_, p1) => some p1

/-- Run a sequence of operations from left to right. -/
def Op.run : List Op → Process → Option Process
  | [], p => some p
  | op :: ops, p =>
    match Op.step p op with
    | none => none
    | some p1 => Op.run ops p1

/-- A `LockServer` call with a non-zero argument. -/
def Op.isLock : Op → Bool
  | Op.LockServer _ fLock => decide (fLock ≠ 0)
  | _ => false

/-- A `LockServer(FALSE)` call. -/
def Op.isUnlock : Op → Bool
  | Op.LockServer _ fLock => decide (fLock = 0)
  | _ => false

/-- Number of `LockServer` calls with a non-zero argument. -/
def Op.lockCalls (ops : List Op) : Nat := ops.countP Op.isLock

/-- Number of `LockServer(FALSE)` calls. -/
def Op.unlockCalls (ops : List Op) : Nat := ops.countP Op.isUnlock

/-- Runs `k` successive `AddRef` calls on the same factory. -/
def DriveOverlayFactory.AddRefTimes : Nat → Nat → Process → Option Process
  | 0, _, p => some p
  | k + 1, this, p =>
    match DriveOverlayFactory.AddRef this p with
    | none => none
    | some (_, p1) => DriveOverlayFactory.AddRefTimes k this p1

/-- Runs `k` successive `Release` calls on the same factory. -/
def DriveOverlayFactory.ReleaseTimes : Nat → Nat → Process → Option Process
  | 0, _, p => some p
  | k + 1, this, p =>
    match DriveOverlayFactory.Release this p with
    | none => none
    | some (_, p1) => DriveOverlayFactory.ReleaseTimes k this p1

/-! ## Sample environments and states used to evaluate the entry points -/

/-- An environment in which every outside call succeeds and `CLSIDFromString`
yields the GUID spelled by `OVERLAY_GUID`. -/
def sampleEnv : Env :=
  { GetModuleFileName := 26,
    szModule := "C:\\NuxeoDriveOverlays.dll",
    GetLastError := 0,
    CLSIDFromString := fun _ => (S_OK, OVERLAY_CLSID),
    RegisterCOMObject := fun _ _ => S_OK,
    MakeRegistryEntries := fun _ _ => S_OK,
    UnregisterCOMObject := fun _ => S_OK,
    RemoveRegistryEntries := fun _ => S_OK }

/-- A stand-in for `NuxeoDriveOverlay` whose extra state counts the overlay
objects constructed so far. -/
def countingOverlayClass : NuxeoDriveOverlayClass Nat :=
  { construct := fun w => some (w.2, (w.1, w.2 + 1)),
    QueryInterface := fun this _ w => (S_OK, some (Ptr.addr this), w),
    Release := fun _ w => w }

/-- The sequence used to exercise the accounting: one factory is constructed,
locked twice, unlocked once and destroyed. -/
def sampleOps : List Op :=
  [Op.construct "", Op.LockServer 0 1, Op.LockServer 0 7, Op.LockServer 0 0, Op.destroy 0]

/-- One factory is constructed at load time and `LockServer(TRUE)` is then called
2147483647 times on it. -/
def manyLocks : List Op :=
  Op.construct "" :: List.replicate 2147483647 (Op.LockServer 0 1)

/-- A process holding one factory with reference count `n`. -/
def oneFactory (n : Int) (dll : Int) : Process :=
  { dllReferenceCount := dll, heap := [some { _referenceCount := n }] }

/-! ## Arithmetic of 32-bit longs -/

theorem toLong_eq_self {z : Int} (h1 : LONG_MIN ≤ z) (h2 : z ≤ LONG_MAX) : toLong z = z := by
  unfold toLong
  unfold LONG_MIN at h1
  unfold LONG_MAX at h2
  omega

theorem InterlockedIncrement_eq {z : Int} (h1 : LONG_MIN ≤ z) (h2 : z < LONG_MAX) :
    InterlockedIncrement z = z + 1 := by
  unfold InterlockedIncrement toLong
  unfold LONG_MIN at h1
  unfold LONG_MAX at h2
  omega

theorem InterlockedDecrement_eq {z : Int} (h1 : LONG_MIN < z) (h2 : z ≤ LONG_MAX) :
    InterlockedDecrement z = z - 1 := by
  unfold InterlockedDecrement toLong
  unfold LONG_MIN at h1
  unfold LONG_MAX at h2
  omega

theorem InterlockedDecrement_Increment {z : Int} (h1 : LONG_MIN ≤ z) (h2 : z ≤ LONG_MAX) :
    InterlockedDecrement (InterlockedIncrement z) = z := by
  unfold InterlockedDecrement InterlockedIncrement toLong
  unfold LONG_MIN at h1
  unfold LONG_MAX at h2
  omega

/-! ## Heap lemmas -/

theorem Process.factory_lt {p : Process} {this : Nat} {f : DriveOverlayFactory}
    (h : p.factory this = some f) : this < p.heap.length := by
  unfold Process.factory at h
  by_contra hlt
  have hge : p.heap.length ≤ this := Nat.le_of_not_lt hlt
  rw [List.get?_eq_none.mpr hge] at h
  simp at h

theorem Process.factory_eq_some_iff {p : Process} {this : Nat} {f : DriveOverlayFactory} :
    p.factory this = some f ↔ p.heap.get? this = some (some f) := by
  unfold Process.factory
  cases hget : p.heap.get? this with
  | none => simp
  | some o =>
    cases o with
    | none => simp
    | some g => simp

theorem Process.factory_store {p : Process} {this : Nat} {f g : DriveOverlayFactory}
    (h : p.factory this = some f) : (p.store this g).factory this = some g := by
  have hlt := Process.factory_lt h
  rw [Process.factory_eq_some_iff]
  simp [Process.store, List.getElem?_set, hlt]

theorem Process.store_store (p : Process) (this : Nat) (f g : DriveOverlayFactory) :
    (p.store this f).store this g = p.store this g := by
  simp [Process.store]

theorem set_of_get?_eq {α : Type} (l : List α) (i : Nat) (a : α)
    (h : l.get? i = some a) : l.set i a = l := by
  induction l generalizing i with
  | nil => rfl
  | cons x xs ih =>
    cases i with
    | zero =>
      simp at h
      simp [h]
    | succ j =>
      simp at h
      simp [ih j (by simpa using h)]

theorem Process.store_self {p : Process} {this : Nat} {f : DriveOverlayFactory}
    (h : p.factory this = some f) : p.store this f = p := by
  have hget := Process.factory_eq_some_iff.mp h
  cases p with
  | mk d hp =>
    simp only [Process.store, Process.mk.injEq, true_and]
    exact set_of_get?_eq hp this (some f) hget

/-! ## DllCanUnloadNow -/

/-- C1, as stated, fails: after one factory is constructed and `LockServer(FALSE)`
is called twice the count is -1, which is not zero, and `DllCanUnloadNow`
returns `S_OK`, not `S_FALSE`. -/
theorem DllCanUnloadNow_negative_count :
    Op.run [Op.construct "", Op.LockServer 0 0, Op.LockServer 0 0] Process.initial
        = some (oneFactory 1 (-1)) ∧
      (oneFactory 1 (-1)).dllReferenceCount ≠ 0 ∧
      DllCanUnloadNow (oneFactory 1 (-1)) = S_OK ∧
      DllCanUnloadNow (oneFactory 1 (-1)) ≠ S_FALSE := by
  decide

/-- C1, amended: `DllCanUnloadNow` returns `S_FALSE` exactly when
`dllReferenceCount` is greater than zero and `S_OK` exactly when it is zero or
negative; it returns nothing else. -/
theorem DllCanUnloadNow_spec (p : Process) :
    (DllCanUnloadNow p = S_FALSE ↔ 0 < p.dllReferenceCount) ∧
      (DllCanUnloadNow p = S_OK ↔ p.dllReferenceCount ≤ 0) ∧
      (DllCanUnloadNow p = S_OK ∨ DllCanUnloadNow p = S_FALSE) := by
  unfold DllCanUnloadNow S_FALSE S_OK
  by_cases h : p.dllReferenceCount > 0
  · have h2 : ¬ p.dllReferenceCount ≤ 0 := by omega
    simp [h, h2]
  · have h2 : p.dllReferenceCount ≤ 0 := by omega
    simp [h, h2]

/-! ## DllGetClassObject on a foreign CLSID -/

/-- C2, evaluated at a failing input: `CLSIDFromString` succeeds, the requested
CLSID is `IID_IClassFactory` (not the extension's CLSID), and `DllGetClassObject`
returns `S_OK`, a success code and not `CLASS_E_CLASSNOTAVAILABLE`; nothing is
stored to `*ppv` and no factory is constructed. -/
theorem DllGetClassObject_foreign_clsid_returns_S_OK :
    IID_IClassFactory ≠ OVERLAY_CLSID ∧
      (sampleEnv.CLSIDFromString OVERLAY_GUID) = (S_OK, OVERLAY_CLSID) ∧
      DllGetClassObject sampleEnv IID_IClassFactory IID_IClassFactory Process.initial
        = some (S_OK, none, Process.initial) ∧
      S_OK ≠ CLASS_E_CLASSNOTAVAILABLE ∧
      FAILED S_OK = false := by
  decide

/-- For every foreign CLSID, when `CLSIDFromString` succeeds, `DllGetClassObject`
returns the `S_OK` left in `hResult` by `CLSIDFromString` and changes nothing. -/
theorem DllGetClassObject_other_clsid_general (env : Env) (rclsid riid : GUID) (p : Process)
    (hok : (env.CLSIDFromString OVERLAY_GUID).1 = S_OK)
    (hne : rclsid ≠ (env.CLSIDFromString OVERLAY_GUID).2) :
    DllGetClassObject env rclsid riid p = some (S_OK, none, p) := by
  have hne2 : ¬ (env.CLSIDFromString OVERLAY_GUID).2 = rclsid := fun h => hne h.symm
  simp [DllGetClassObject, hok, IsEqualCLSID, hne2]

/-! ## DriveOverlayFactory::QueryInterface -/

/-- C3: on a live factory with reference count below `LONG_MAX`, `QueryInterface`
returns `S_OK`, stores the factory in `*ppv` and raises the reference count by
exactly one when `riid` is `IID_IUnknown` or `IID_IClassFactory`; for every other
`riid` it returns `E_NOINTERFACE`, stores `NULL` and leaves the whole state
unchanged. The first outcome occurs if and only if `riid` is one of the two. -/
theorem QueryInterface_spec (this : Nat) (riid : GUID) (p : Process)
    (f : DriveOverlayFactory) (hlive : p.factory this = some f)
    (hmin : LONG_MIN ≤ f._referenceCount) (hmax : f._referenceCount < LONG_MAX) :
    ((riid = IID_IUnknown ∨ riid = IID_IClassFactory) →
        DriveOverlayFactory.QueryInterface this riid p
          = some (S_OK, some (Ptr.addr this),
              p.store this { _referenceCount := f._referenceCount + 1 })) ∧
      (¬ (riid = IID_IUnknown ∨ riid = IID_IClassFactory) →
        DriveOverlayFactory.QueryInterface this riid p
          = some (E_NOINTERFACE, some Ptr.null, p)) ∧
      ((∃ p1, DriveOverlayFactory.QueryInterface this riid p
            = some (S_OK, some (Ptr.addr this), p1) ∧
          p1.factory this = some { _referenceCount := f._referenceCount + 1 } ∧
          p1.dllReferenceCount = p.dllReferenceCount)
        ↔ (riid = IID_IUnknown ∨ riid = IID_IClassFactory)) := by
  have hyes : (riid = IID_IUnknown ∨ riid = IID_IClassFactory) →
      DriveOverlayFactory.QueryInterface this riid p
        = some (S_OK, some (Ptr.addr this),
            p.store this { _referenceCount := f._referenceCount + 1 }) := by
    intro h
    have hb : (IsEqualIID IID_IUnknown riid || IsEqualIID IID_IClassFactory riid) = true := by
      rcases h with h | h <;> simp [IsEqualIID, h]
    simp only [DriveOverlayFactory.QueryInterface, hlive, hb, if_true,
      DriveOverlayFactory.AddRef, InterlockedIncrement_eq hmin hmax]
  have hno : ¬ (riid = IID_IUnknown ∨ riid = IID_IClassFactory) →
      DriveOverlayFactory.QueryInterface this riid p
        = some (E_NOINTERFACE, some Ptr.null, p) := by
    intro h
    have h1 : ¬ IID_IUnknown = riid := fun e => h (Or.inl e.symm)
    have h2 : ¬ IID_IClassFactory = riid := fun e => h (Or.inr e.symm)
    simp [DriveOverlayFactory.QueryInterface, hlive, IsEqualIID, h1, h2]
  refine ⟨hyes, hno, ?_, ?_⟩
  · rintro ⟨p1, hq, -, -⟩
    by_contra hcon
    rw [hno hcon] at hq
    simp [E_NOINTERFACE, S_OK] at hq
  · intro h
    exact ⟨_, hyes h, Process.factory_store hlive, rfl⟩

/-- Witness for C3: a factory with count 1 queried for `IID_IClassFactory`. -/
theorem QueryInterface_spec_witness :
    (oneFactory 1 1).factory 0 = some { _referenceCount := 1 } ∧
      LONG_MIN ≤ 1 ∧ 1 < LONG_MAX ∧
      DriveOverlayFactory.QueryInterface 0 IID_IClassFactory (oneFactory 1 1)
        = some (S_OK, some (Ptr.addr 0), oneFactory 2 1) ∧
      DriveOverlayFactory.QueryInterface 0 OVERLAY_CLSID (oneFactory 1 1)
        = some (E_NOINTERFACE, some Ptr.null, oneFactory 1 1) := by
  have h := QueryInterface_spec 0 IID_IClassFactory (oneFactory 1 1) { _referenceCount := 1 }
    (by decide) (by decide) (by decide)
  have h2 := QueryInterface_spec 0 OVERLAY_CLSID (oneFactory 1 1) { _referenceCount := 1 }
    (by decide) (by decide) (by decide)
  exact ⟨by decide, by decide, by decide, h.1 (Or.inr rfl), h2.2.1 (by decide)⟩

/-! ## The process-wide count -/

theorem toLong_toLong_add (x d : Int) : toLong (toLong x + d) = toLong (x + d) := by
  unfold toLong
  omega

theorem countP_isSome_set_none {α : Type} (l : List (Option α)) (i : Nat) (a : α)
    (h : l.get? i = some (some a)) :
    (l.set i none).countP Option.isSome + 1 = l.countP Option.isSome := by
  induction l generalizing i with
  | nil => simp at h
  | cons x xs ih =>
    cases i with
    | zero =>
      simp at h
      simp [h, List.countP_cons]
    | succ j =>
      have hj : xs.get? j = some (some a) := by simpa using h
      have := ih j hj
      simp only [List.set_cons_succ, List.countP_cons]
      omega

theorem construct_liveFactories (path : String) (p : Process) :
    (DriveOverlayFactory.construct path p).2.liveFactories = p.liveFactories + 1 := by
  simp [DriveOverlayFactory.construct, Process.liveFactories, List.countP_append]

theorem destroy_eq_some {this : Nat} {p : Process} {f : DriveOverlayFactory}
    (h : p.factory this = some f) :
    DriveOverlayFactory.destroy this p
      = some { dllReferenceCount := InterlockedDecrement p.dllReferenceCount,
               heap := p.heap.set this none } := by
  simp [DriveOverlayFactory.destroy, h]

theorem destroy_liveFactories {this : Nat} {p p1 : Process}
    (h : DriveOverlayFactory.destroy this p = some p1) :
    p1.liveFactories + 1 = p.liveFactories ∧
      p1.dllReferenceCount = InterlockedDecrement p.dllReferenceCount := by
  unfold DriveOverlayFactory.destroy at h
  cases hf : p.factory this with
  | none => simp [hf] at h
  | some f =>
    simp only [hf, Option.some.injEq] at h
    subst h
    exact ⟨countP_isSome_set_none p.heap this f (Process.factory_eq_some_iff.mp hf), rfl⟩

theorem LockServer_eq_some {this : Nat} {p : Process} {f : DriveOverlayFactory}
    (fLock : Int) (h : p.factory this = some f) :
    DriveOverlayFactory.LockServer this fLock p
      = some (S_OK, { p with dllReferenceCount :=
          if fLock ≠ 0 then InterlockedIncrement p.dllReferenceCount
          else InterlockedDecrement p.dllReferenceCount }) := by
  by_cases hz : fLock = 0 <;> simp [DriveOverlayFactory.LockServer, h, hz]

theorem Op.run_count (ops : List Op) :
    ∀ (p0 p : Process) (c : Int),
      p0.dllReferenceCount = toLong (c + p0.liveFactories) →
      Op.run ops p0 = some p →
      p.dllReferenceCount
          = toLong (c + p.liveFactories + Op.lockCalls ops - Op.unlockCalls ops) ∧
        p.liveFactories + Op.lockCalls ops + Op.unlockCalls ops
          ≤ p0.liveFactories + ops.length := by
  induction ops with
  | nil =>
    intro p0 p c h0 hrun
    simp only [Op.run, Option.some.injEq] at hrun
    subst hrun
    simp [Op.lockCalls, Op.unlockCalls, h0]
  | cons op ops ih =>
    intro p0 p c h0 hrun
    simp only [Op.run] at hrun
    cases hstep : Op.step p0 op with
    | none => simp [hstep] at hrun
    | some p1 =>
      simp only [hstep] at hrun
      cases op with
      | construct path =>
        simp only [Op.step, Option.some.injEq] at hstep
        have hl : p1.liveFactories = p0.liveFactories + 1 := by
          rw [← hstep]; exact construct_liveFactories path p0
        have hd : p1.dllReferenceCount = toLong (c + p1.liveFactories) := by
          rw [← hstep, construct_liveFactories]
          simp only [DriveOverlayFactory.construct, InterlockedIncrement, h0]
          rw [toLong_toLong_add]
          congr 1
          push_cast
          ring
        obtain ⟨h1, h2⟩ := ih p1 p c hd hrun
        simp only [Op.lockCalls, Op.unlockCalls] at h1 h2
        simp only [Op.lockCalls, Op.unlockCalls, List.countP_cons, Op.isLock, Op.isUnlock,
          List.length_cons, Bool.false_eq_true, if_false, Nat.add_zero]
        constructor
        · rw [h1]
        · omega
      | destroy this =>
        simp only [Op.step] at hstep
        obtain ⟨hl, hdll⟩ := destroy_liveFactories hstep
        have hd : p1.dllReferenceCount = toLong (c + p1.liveFactories) := by
          rw [hdll, InterlockedDecrement, h0, ← hl, sub_eq_add_neg, toLong_toLong_add]
          congr 1
          push_cast
          ring
        obtain ⟨h1, h2⟩ := ih p1 p c hd hrun
        simp only [Op.lockCalls, Op.unlockCalls] at h1 h2
        simp only [Op.lockCalls, Op.unlockCalls, List.countP_cons, Op.isLock, Op.isUnlock,
          List.length_cons, Bool.false_eq_true, if_false, Nat.add_zero]
        constructor
        · rw [h1]
        · omega
      | LockServer this fLock =>
        simp only [Op.step] at hstep
        cases hf : p0.factory this with
        | none => simp [DriveOverlayFactory.LockServer, hf] at hstep
        | some f =>
          rw [LockServer_eq_some fLock hf] at hstep
          simp only [Option.some.injEq] at hstep
          have hl : p1.liveFactories = p0.liveFactories := by
            rw [← hstep]; rfl
          by_cases hz : fLock = 0
          · have hd : p1.dllReferenceCount = toLong ((c - 1) + p1.liveFactories) := by
              rw [hl, ← hstep]
              simp only [hz, ne_eq, not_true_eq_false, if_false, InterlockedDecrement, h0]
              rw [sub_eq_add_neg, toLong_toLong_add]
              congr 1
              ring
            obtain ⟨h1, h2⟩ := ih p1 p (c - 1) hd hrun
            simp only [Op.lockCalls, Op.unlockCalls] at h1 h2
            simp only [Op.lockCalls, Op.unlockCalls, List.countP_cons, Op.isLock, Op.isUnlock,
              List.length_cons, hz, ne_eq, not_true_eq_false, decide_False, decide_True,
              Bool.false_eq_true, if_false, if_true, Nat.add_zero]
            constructor
            · rw [h1]; congr 1; push_cast; ring
            · omega
          · have hd : p1.dllReferenceCount = toLong ((c + 1) + p1.liveFactories) := by
              rw [hl, ← hstep]
              simp only [hz, ne_eq, not_false_eq_true, if_true, InterlockedIncrement, h0]
              rw [toLong_toLong_add]
              congr 1
              ring
            obtain ⟨h1, h2⟩ := ih p1 p (c + 1) hd hrun
            simp only [Op.lockCalls, Op.unlockCalls] at h1 h2
            simp only [Op.lockCalls, Op.unlockCalls, List.countP_cons, Op.isLock, Op.isUnlock,
              List.length_cons, hz, ne_eq, not_false_eq_true, decide_False, decide_True,
              Bool.false_eq_true, if_false, if_true, Nat.add_zero]
            constructor
            · rw [h1]; congr 1; push_cast; ring
            · omega

theorem run_replicate_LockServer (this : Nat) (fLock : Int) (k : Nat) :
    ∀ (p : Process) (f : DriveOverlayFactory), p.factory this = some f →
      ∃ p1, Op.run (List.replicate k (Op.LockServer this fLock)) p = some p1 ∧
        p1.heap = p.heap := by
  induction k with
  | zero =>
    intro p f _
    exact ⟨p, rfl, rfl⟩
  | succ k ih =>
    intro p f hf
    have hstep := LockServer_eq_some fLock hf
    have hf1 : Process.factory
        { p with dllReferenceCount :=
            if fLock ≠ 0 then InterlockedIncrement p.dllReferenceCount
            else InterlockedDecrement p.dllReferenceCount } this = some f := hf
    obtain ⟨p1, h1, h2⟩ := ih _ f hf1
    refine ⟨p1, ?_, h2⟩
    simp only [List.replicate_succ, Op.run, Op.step, hstep]
    exact h1

theorem run_construct_then_locks (k : Nat) :
    Op.run (Op.construct "" :: List.replicate k (Op.LockServer 0 1)) Process.initial
        = some (oneFactory 1 (toLong (1 + (k : Int)))) ∧
      Op.lockCalls (Op.construct "" :: List.replicate k (Op.LockServer 0 1)) = k ∧
      Op.unlockCalls (Op.construct "" :: List.replicate k (Op.LockServer 0 1)) = 0 := by
  have hl : Op.lockCalls (Op.construct "" :: List.replicate k (Op.LockServer 0 1)) = k := by
    simp [Op.lockCalls, List.countP_cons, List.countP_replicate, Op.isLock]
  have hu : Op.unlockCalls (Op.construct "" :: List.replicate k (Op.LockServer 0 1)) = 0 := by
    simp [Op.unlockCalls, List.countP_cons, List.countP_replicate, Op.isUnlock]
  refine ⟨?_, hl, hu⟩
  have hq : (oneFactory 1 1).factory 0 = some { _referenceCount := 1 } := by decide
  obtain ⟨p1, hrun, hheap⟩ := run_replicate_LockServer 0 1 k (oneFactory 1 1) _ hq
  have hwhole : Op.run (Op.construct "" :: List.replicate k (Op.LockServer 0 1))
      Process.initial = some p1 := by
    have hc : (DriveOverlayFactory.construct "" Process.initial).2 = oneFactory 1 1 := by
      decide
    simp only [Op.run, Op.step, hc]
    exact hrun
  have h0 : Process.initial.dllReferenceCount
      = toLong (0 + (Process.initial.liveFactories : Int)) := by decide
  obtain ⟨hd, -⟩ := Op.run_count _ Process.initial p1 0 h0 hwhole
  have hlive : p1.liveFactories = 1 := by
    unfold Process.liveFactories
    rw [hheap]
    decide
  rw [hl, hu, hlive] at hd
  rw [hwhole]
  cases p1 with
  | mk d hp =>
    simp only at hd hheap
    subst hheap
    rw [hd]
    simp [oneFactory]

/-- C4, as stated, fails: from load time one factory is constructed and
`LockServer(TRUE)` is called 2147483647 times; the 32-bit count wraps to
-2147483648, while live factories plus lock calls minus unlock calls is
1 + 2147483647 - 0 = 2147483648. -/
theorem dllReferenceCount_wraps_after_many_locks :
    Op.run manyLocks Process.initial = some (oneFactory 1 (-2147483648)) ∧
      (oneFactory 1 (-2147483648)).liveFactories = 1 ∧
      Op.lockCalls manyLocks = 2147483647 ∧
      Op.unlockCalls manyLocks = 0 ∧
      (oneFactory 1 (-2147483648)).dllReferenceCount
        ≠ ((1 : Nat) : Int) + ((2147483647 : Nat) : Int) - ((0 : Nat) : Int) := by
  have h := run_construct_then_locks 2147483647
  have hw : toLong (1 + ((2147483647 : Nat) : Int)) = -2147483648 := by decide
  rw [hw] at h
  exact ⟨h.1, by decide, h.2.1, h.2.2, by decide⟩

/-- C4, amended: with the count inside the `long` range, constructing a factory
raises `dllReferenceCount` by exactly one, destroying one lowers it by exactly
one, `LockServer` with a non-zero argument raises it by one and
`LockServer(FALSE)` lowers it by one; `LockServer` returns `S_OK` for every
argument and leaves the heap (hence every `_referenceCount`) untouched; after
any sequence of these operations from load time the count is live factories
plus lock calls minus unlock calls reduced to a 32-bit `long`, and equals that
number exactly whenever it lies between `LONG_MIN` and `LONG_MAX`. -/
theorem dllReferenceCount_accounting :
    (∀ (path : String) (p : Process),
        LONG_MIN ≤ p.dllReferenceCount → p.dllReferenceCount < LONG_MAX →
        (DriveOverlayFactory.construct path p).2.dllReferenceCount
          = p.dllReferenceCount + 1) ∧
      (∀ (this : Nat) (p : Process) (f : DriveOverlayFactory),
        p.factory this = some f →
        LONG_MIN < p.dllReferenceCount → p.dllReferenceCount ≤ LONG_MAX →
        DriveOverlayFactory.destroy this p
          = some { dllReferenceCount := p.dllReferenceCount - 1,
                   heap := p.heap.set this none }) ∧
      (∀ (this : Nat) (fLock : Int) (p : Process) (f : DriveOverlayFactory),
        p.factory this = some f → fLock ≠ 0 →
        LONG_MIN ≤ p.dllReferenceCount → p.dllReferenceCount < LONG_MAX →
        DriveOverlayFactory.LockServer this fLock p
          = some (S_OK, { dllReferenceCount := p.dllReferenceCount + 1, heap := p.heap })) ∧
      (∀ (this : Nat) (p : Process) (f : DriveOverlayFactory),
        p.factory this = some f →
        LONG_MIN < p.dllReferenceCount → p.dllReferenceCount ≤ LONG_MAX →
        DriveOverlayFactory.LockServer this 0 p
          = some (S_OK, { dllReferenceCount := p.dllReferenceCount - 1, heap := p.heap })) ∧
      (∀ (this : Nat) (fLock : Int) (p : Process) (f : DriveOverlayFactory),
        p.factory this = some f →
        ∃ p1, DriveOverlayFactory.LockServer this fLock p = some (S_OK, p1) ∧
          p1.heap = p.heap) ∧
      (∀ (ops : List Op) (p : Process),
        Op.run ops Process.initial = some p →
        p.dllReferenceCount
            = toLong ((p.liveFactories : Int) + (Op.lockCalls ops : Int)
                - (Op.unlockCalls ops : Int)) ∧
          (LONG_MIN ≤ (p.liveFactories : Int) + (Op.lockCalls ops : Int)
                - (Op.unlockCalls ops : Int) →
            (p.liveFactories : Int) + (Op.lockCalls ops : Int)
                - (Op.unlockCalls ops : Int) ≤ LONG_MAX →
            p.dllReferenceCount
              = (p.liveFactories : Int) + (Op.lockCalls ops : Int)
                - (Op.unlockCalls ops : Int))) := by
  refine ⟨?_, ?_, ?_, ?_, ?_, ?_⟩
  · intro path p h1 h2
    simp only [DriveOverlayFactory.construct]
    exact InterlockedIncrement_eq h1 h2
  · intro this p f hf h1 h2
    rw [destroy_eq_some hf, InterlockedDecrement_eq h1 h2]
  · intro this fLock p f hf hz h1 h2
    rw [LockServer_eq_some fLock hf]
    simp only [hz, ne_eq, not_false_eq_true, if_true, InterlockedIncrement_eq h1 h2]
  · intro this p f hf h1 h2
    rw [LockServer_eq_some 0 hf]
    simp only [ne_eq, not_true_eq_false, if_false, InterlockedDecrement_eq h1 h2]
  · intro this fLock p f hf
    exact ⟨_, LockServer_eq_some fLock hf, rfl⟩
  · intro ops p hrun
    have h0 : Process.initial.dllReferenceCount
        = toLong (0 + (Process.initial.liveFactories : Int)) := by decide
    obtain ⟨h1, -⟩ := Op.run_count ops Process.initial p 0 h0 hrun
    rw [Int.zero_add] at h1
    refine ⟨h1, ?_⟩
    intro hb hc
    rw [h1, toLong_eq_self hb hc]

/-- Witness for C4: after `sampleOps` the count is 0 live + 2 locks - 1 unlock = 1,
and one `LockServer(FALSE)` on a process with count 1 gives count 0. -/
theorem dllReferenceCount_accounting_witness :
    Op.run sampleOps Process.initial = some { dllReferenceCount := 1, heap := [none] } ∧
      (1 : Int) = ((0 : Nat) : Int) + ((2 : Nat) : Int) - ((1 : Nat) : Int) ∧
      DriveOverlayFactory.LockServer 0 0 (oneFactory 1 1)
        = some (S_OK, { dllReferenceCount := 1 - 1, heap := (oneFactory 1 1).heap }) := by
  have h := dllReferenceCount_accounting
  have hrun : Op.run sampleOps Process.initial
      = some { dllReferenceCount := 1, heap := [none] } := by decide
  refine ⟨hrun, ?_, ?_⟩
  · exact (h.2.2.2.2.2 sampleOps { dllReferenceCount := 1, heap := [none] } hrun).2
      (by decide) (by decide)
  · exact h.2.2.2.1 0 (oneFactory 1 1) { _referenceCount := 1 } (by decide) (by decide)
      (by decide)

/-! ## DriveOverlayFactory::CreateInstance -/

/-- C5: on a live factory, `CreateInstance` with a non-NULL `pUnkOuter` returns
`CLASS_E_NOAGGREGATION` for every `riid` and every `NuxeoDriveOverlay`
implementation, stores nothing to `*ppv` and leaves the whole state (process
and overlay objects) as it was. -/
theorem CreateInstance_aggregation {σ : Type} (cls : NuxeoDriveOverlayClass σ)
    (this : Nat) (pUnkOuter : Ptr) (riid : GUID) (w : Process × σ)
    (f : DriveOverlayFactory) (hlive : w.1.factory this = some f)
    (hagg : pUnkOuter ≠ Ptr.null) :
    DriveOverlayFactory.CreateInstance cls this pUnkOuter riid w
      = some (CLASS_E_NOAGGREGATION, none, w) := by
  simp [DriveOverlayFactory.CreateInstance, hlive, hagg]

/-- Witness for C5: an aggregation request on a factory with count 1; the
overlay-construction counter stays at 0, whereas a request with NULL
`pUnkOuter` raises it to 1. -/
theorem CreateInstance_aggregation_witness :
    (oneFactory 1 1).factory 0 = some { _referenceCount := 1 } ∧
      Ptr.addr 5 ≠ Ptr.null ∧
      DriveOverlayFactory.CreateInstance countingOverlayClass 0 (Ptr.addr 5) IID_IUnknown
          (oneFactory 1 1, 0)
        = some (CLASS_E_NOAGGREGATION, none, (oneFactory 1 1, 0)) ∧
      DriveOverlayFactory.CreateInstance countingOverlayClass 0 Ptr.null IID_IUnknown
          (oneFactory 1 1, 0)
        = some (S_OK, some (Ptr.addr 0), (oneFactory 1 1, 1)) :=
  ⟨by decide, by decide,
    CreateInstance_aggregation countingOverlayClass 0 (Ptr.addr 5) IID_IUnknown
      (oneFactory 1 1, 0) { _referenceCount := 1 } (by decide) (by decide),
    by decide⟩

/-! ## DllRegisterServer and DllUnregisterServer -/

/-- C6: `DllRegisterServer` calls `GetModuleFileName`, `CLSIDFromString(OVERLAY_GUID)`,
`RegisterCOMObject(module path, guid)`, `MakeRegistryEntries(guid, OVERLAY_NAME)` in
this order; it stops at the first step that fails (zero length, a code other
than `S_OK`, `FAILED`, `FAILED` respectively) and returns that step's code,
`HRESULT_FROM_WIN32(GetLastError())` for the module path; otherwise it returns
the code of `MakeRegistryEntries`. It never calls an unregistration helper. -/
theorem DllRegisterServer_spec (env : Env) :
    (env.GetModuleFileName = 0 →
        DllRegisterServer env
          = (HRESULT_FROM_WIN32 env.GetLastError,
             [Call.GetModuleFileName, Call.GetLastError])) ∧
      (env.GetModuleFileName ≠ 0 → (env.CLSIDFromString OVERLAY_GUID).1 ≠ S_OK →
        DllRegisterServer env
          = ((env.CLSIDFromString OVERLAY_GUID).1,
             [Call.GetModuleFileName, Call.CLSIDFromString OVERLAY_GUID])) ∧
      (env.GetModuleFileName ≠ 0 → (env.CLSIDFromString OVERLAY_GUID).1 = S_OK →
        FAILED (env.RegisterCOMObject env.szModule (env.CLSIDFromString OVERLAY_GUID).2) = true →
        DllRegisterServer env
          = (env.RegisterCOMObject env.szModule (env.CLSIDFromString OVERLAY_GUID).2,
             [Call.GetModuleFileName, Call.CLSIDFromString OVERLAY_GUID,
              Call.RegisterCOMObject env.szModule (env.CLSIDFromString OVERLAY_GUID).2])) ∧
      (env.GetModuleFileName ≠ 0 → (env.CLSIDFromString OVERLAY_GUID).1 = S_OK →
        FAILED (env.RegisterCOMObject env.szModule (env.CLSIDFromString OVERLAY_GUID).2) = false →
        DllRegisterServer env
          = (env.MakeRegistryEntries (env.CLSIDFromString OVERLAY_GUID).2 OVERLAY_NAME,
             [Call.GetModuleFileName, Call.CLSIDFromString OVERLAY_GUID,
              Call.RegisterCOMObject env.szModule (env.CLSIDFromString OVERLAY_GUID).2,
              Call.MakeRegistryEntries (env.CLSIDFromString OVERLAY_GUID).2 OVERLAY_NAME])) ∧
      (∀ (clsid : GUID) (name : String),
        Call.UnregisterCOMObject clsid ∉ (DllRegisterServer env).2 ∧
        Call.RemoveRegistryEntries name ∉ (DllRegisterServer env).2) := by
  refine ⟨?_, ?_, ?_, ?_, ?_⟩
  · intro h0
    simp [DllRegisterServer, h0]
  · intro h0 h1
    simp [DllRegisterServer, h0, h1]
  · intro h0 h1 h2
    simp [DllRegisterServer, h0, h1, h2]
  · intro h0 h1 h2
    simp only [DllRegisterServer, h0, h1, h2, if_false, ne_eq, not_true_eq_false,
      Bool.false_eq_true]
    split <;> rfl
  · intro clsid name
    unfold DllRegisterServer
    simp only
    split_ifs <;> simp

/-- Witness for C6: with `RegisterCOMObject` failing with `E_OUTOFMEMORY` the
entry point returns that code after three calls; with every step succeeding it
returns the code of `MakeRegistryEntries` after four calls. -/
theorem DllRegisterServer_spec_witness :
    DllRegisterServer { sampleEnv with RegisterCOMObject := fun _ _ => E_OUTOFMEMORY }
        = (E_OUTOFMEMORY,
           [Call.GetModuleFileName, Call.CLSIDFromString OVERLAY_GUID,
            Call.RegisterCOMObject "C:\\NuxeoDriveOverlays.dll" OVERLAY_CLSID]) ∧
      DllRegisterServer { sampleEnv with MakeRegistryEntries := fun _ _ => S_FALSE }
        = (S_FALSE,
           [Call.GetModuleFileName, Call.CLSIDFromString OVERLAY_GUID,
            Call.RegisterCOMObject "C:\\NuxeoDriveOverlays.dll" OVERLAY_CLSID,
            Call.MakeRegistryEntries OVERLAY_CLSID OVERLAY_NAME]) :=
  ⟨(DllRegisterServer_spec
      { sampleEnv with RegisterCOMObject := fun _ _ => E_OUTOFMEMORY }).2.2.1
      (by decide) (by decide) (by decide),
   (DllRegisterServer_spec
      { sampleEnv with MakeRegistryEntries := fun _ _ => S_FALSE }).2.2.2.1
      (by decide) (by decide) (by decide)⟩

/-- C7: `DllUnregisterServer` calls `RemoveRegistryEntries(OVERLAY_NAME)` only after
`UnregisterCOMObject(guid)` returned a code that is not `FAILED`; when
`UnregisterCOMObject` fails it returns that same code and makes no call to
`RemoveRegistryEntries`; when it does not fail the result is the code of
`RemoveRegistryEntries`. -/
theorem DllUnregisterServer_spec (env : Env) :
    (∀ name : String, Call.RemoveRegistryEntries name ∈ (DllUnregisterServer env).2 →
        name = OVERLAY_NAME ∧
        env.GetModuleFileName ≠ 0 ∧ (env.CLSIDFromString OVERLAY_GUID).1 = S_OK ∧
        FAILED (env.UnregisterCOMObject (env.CLSIDFromString OVERLAY_GUID).2) = false) ∧
      (env.GetModuleFileName ≠ 0 → (env.CLSIDFromString OVERLAY_GUID).1 = S_OK →
        FAILED (env.UnregisterCOMObject (env.CLSIDFromString OVERLAY_GUID).2) = true →
        DllUnregisterServer env
          = (env.UnregisterCOMObject (env.CLSIDFromString OVERLAY_GUID).2,
             [Call.GetModuleFileName, Call.CLSIDFromString OVERLAY_GUID,
              Call.UnregisterCOMObject (env.CLSIDFromString OVERLAY_GUID).2]) ∧
        ∀ name : String, Call.RemoveRegistryEntries name ∉ (DllUnregisterServer env).2) ∧
      (env.GetModuleFileName ≠ 0 → (env.CLSIDFromString OVERLAY_GUID).1 = S_OK →
        FAILED (env.UnregisterCOMObject (env.CLSIDFromString OVERLAY_GUID).2) = false →
        DllUnregisterServer env
          = (env.RemoveRegistryEntries OVERLAY_NAME,
             [Call.GetModuleFileName, Call.CLSIDFromString OVERLAY_GUID,
              Call.UnregisterCOMObject (env.CLSIDFromString OVERLAY_GUID).2,
              Call.RemoveRegistryEntries OVERLAY_NAME])) := by
  refine ⟨?_, ?_, ?_⟩
  · intro name hmem
    unfold DllUnregisterServer at hmem
    simp only at hmem
    split_ifs at hmem with h0 h1 h2 h3 <;> simp at hmem
    · exact ⟨hmem, h0, not_not.mp h1, by simpa using h2⟩
    · exact ⟨hmem, h0, not_not.mp h1, by simpa using h2⟩
  · intro h0 h1 h2
    have heq : DllUnregisterServer env
        = (env.UnregisterCOMObject (env.CLSIDFromString OVERLAY_GUID).2,
           [Call.GetModuleFileName, Call.CLSIDFromString OVERLAY_GUID,
            Call.UnregisterCOMObject (env.CLSIDFromString OVERLAY_GUID).2]) := by
      simp [DllUnregisterServer, h0, h1, h2]
    refine ⟨heq, ?_⟩
    intro name
    rw [heq]
    simp
  · intro h0 h1 h2
    simp only [DllUnregisterServer, h0, h1, h2, if_false, ne_eq, not_true_eq_false,
      Bool.false_eq_true]
    split <;> rfl

/-- Witness for C7: `UnregisterCOMObject` fails with `E_OUTOFMEMORY`; the entry
point returns that code and its calls end with `UnregisterCOMObject`. -/
theorem DllUnregisterServer_spec_witness :
    FAILED E_OUTOFMEMORY = true ∧
      DllUnregisterServer { sampleEnv with UnregisterCOMObject := fun _ => E_OUTOFMEMORY }
        = (E_OUTOFMEMORY,
           [Call.GetModuleFileName, Call.CLSIDFromString OVERLAY_GUID,
            Call.UnregisterCOMObject OVERLAY_CLSID]) ∧
      DllUnregisterServer { sampleEnv with RemoveRegistryEntries := fun _ => S_FALSE }
        = (S_FALSE,
           [Call.GetModuleFileName, Call.CLSIDFromString OVERLAY_GUID,
            Call.UnregisterCOMObject OVERLAY_CLSID,
            Call.RemoveRegistryEntries OVERLAY_NAME]) :=
  ⟨by decide,
   ((DllUnregisterServer_spec
      { sampleEnv with UnregisterCOMObject := fun _ => E_OUTOFMEMORY }).2.1
      (by decide) (by decide) (by decide)).1,
   (DllUnregisterServer_spec
      { sampleEnv with RemoveRegistryEntries := fun _ => S_FALSE }).2.2
      (by decide) (by decide) (by decide)⟩

/-! ## DriveMessage -/

/-- C8: `GetCommand` after `SetCommand(p)` returns `p` and `GetValue` is unchanged;
`GetValue` after `SetValue(p)` returns `p` and `GetCommand` is unchanged, for
every message and every pointer `p` (NULL included); a freshly constructed
message points to two distinct strings, both empty. -/
theorem DriveMessage_spec (m : DriveMessage) (p : Ptr) (h : StringHeap) :
    (m.SetCommand p).GetCommand = p ∧
      (m.SetCommand p).GetValue = m.GetValue ∧
      (m.SetValue p).GetValue = p ∧
      (m.SetValue p).GetCommand = m.GetCommand ∧
      (DriveMessage.construct h).2.deref (DriveMessage.construct h).1.GetCommand = some [] ∧
      (DriveMessage.construct h).2.deref (DriveMessage.construct h).1.GetValue = some [] ∧
      (DriveMessage.construct h).1.GetCommand ≠ (DriveMessage.construct h).1.GetValue := by
  refine ⟨rfl, rfl, rfl, rfl, ?_, ?_, ?_⟩
  · have h1 : (h ++ [([] : wstring)] ++ [[]]).get? h.length = some [] := by
      rw [List.append_assoc, List.get?_eq_getElem?,
        List.getElem?_append_right (Nat.le_refl _)]
      simp
    simpa [DriveMessage.construct, newWstring, DriveMessage.GetCommand, StringHeap.deref]
      using h1
  · have h2 : (h ++ [([] : wstring)] ++ [[]]).get? (h ++ [([] : wstring)]).length
        = some [] := by
      rw [List.get?_eq_getElem?, List.getElem?_append_right (Nat.le_refl _)]
      simp
    simpa [DriveMessage.construct, newWstring, DriveMessage.GetValue, StringHeap.deref]
      using h2
  · simp [DriveMessage.construct, newWstring, DriveMessage.GetValue, DriveMessage.GetCommand]

/-! ## AddRef and Release -/

theorem AddRef_eq {this : Nat} {p : Process} {f : DriveOverlayFactory}
    (h : p.factory this = some f) :
    DriveOverlayFactory.AddRef this p
      = some (toULONG (InterlockedIncrement f._referenceCount),
          p.store this { _referenceCount := InterlockedIncrement f._referenceCount }) := by
  simp [DriveOverlayFactory.AddRef, h]

theorem Release_eq_alive {this : Nat} {p : Process} {f : DriveOverlayFactory}
    (h : p.factory this = some f)
    (hne : toULONG (InterlockedDecrement f._referenceCount) ≠ 0) :
    DriveOverlayFactory.Release this p
      = some (toULONG (InterlockedDecrement f._referenceCount),
          p.store this { _referenceCount := InterlockedDecrement f._referenceCount }) := by
  have hne2 : ¬ 0 = toULONG (InterlockedDecrement f._referenceCount) := fun e => hne e.symm
  simp [DriveOverlayFactory.Release, h, hne2]

theorem Release_eq_destroy {this : Nat} {p : Process} {f : DriveOverlayFactory}
    (h : p.factory this = some f)
    (hz : toULONG (InterlockedDecrement f._referenceCount) = 0) :
    DriveOverlayFactory.Release this p
      = some (0, { dllReferenceCount := InterlockedDecrement p.dllReferenceCount,
                   heap := p.heap.set this none }) := by
  have hst : (p.store this { _referenceCount := InterlockedDecrement f._referenceCount }).factory
      this = some { _referenceCount := InterlockedDecrement f._referenceCount } :=
    Process.factory_store h
  simp only [DriveOverlayFactory.Release, h, hz, if_true, destroy_eq_some hst]
  simp [Process.store]

theorem factory_set_none (p : Process) (this : Nat) (d : Int) :
    Process.factory { dllReferenceCount := d, heap := p.heap.set this none } this = none := by
  unfold Process.factory
  simp only [List.get?_eq_getElem?, List.getElem?_set]
  by_cases hlt : this < p.heap.length
  · simp [hlt]
  · simp [hlt, List.getElem?_eq_none (Nat.le_of_not_lt hlt)]

theorem InterlockedIncrement_toLong (x : Int) :
    InterlockedIncrement (toLong x) = toLong (x + 1) := by
  unfold InterlockedIncrement
  exact toLong_toLong_add x 1

theorem InterlockedDecrement_toLong (x : Int) :
    InterlockedDecrement (toLong x) = toLong (x - 1) := by
  unfold InterlockedDecrement
  rw [sub_eq_add_neg, toLong_toLong_add, ← sub_eq_add_neg]

theorem toULONG_toLong (x : Int) : toULONG (toLong x) = x % 4294967296 := by
  unfold toULONG toLong
  omega

theorem AddRefTimes_wrap (this : Nat) (k : Nat) :
    ∀ (p : Process) (m : Int), p.factory this = some { _referenceCount := toLong m } →
      DriveOverlayFactory.AddRefTimes k this p
        = some (p.store this { _referenceCount := toLong (m + k) }) := by
  induction k with
  | zero =>
    intro p m h
    have h2 : p.factory this = some { _referenceCount := toLong (m + ((0 : Nat) : Int)) } := by
      simpa using h
    simp only [DriveOverlayFactory.AddRefTimes, Process.store_self h2]
  | succ k ih =>
    intro p m h
    have hstep := AddRef_eq h
    simp only [InterlockedIncrement_toLong] at hstep
    simp only [DriveOverlayFactory.AddRefTimes, hstep]
    rw [ih (p.store this { _referenceCount := toLong (m + 1) }) (m + 1)
      (Process.factory_store h), Process.store_store]
    congr 4
    push_cast
    ring

theorem ReleaseTimes_wrap (this : Nat) (k : Nat) :
    ∀ (p : Process) (m : Int), p.factory this = some { _referenceCount := toLong m } →
      (∀ j : Int, m - k ≤ j → j < m → j % 4294967296 ≠ 0) →
      DriveOverlayFactory.ReleaseTimes k this p
        = some (p.store this { _referenceCount := toLong (m - k) }) := by
  induction k with
  | zero =>
    intro p m h _
    have h2 : p.factory this = some { _referenceCount := toLong (m - ((0 : Nat) : Int)) } := by
      simpa using h
    simp only [DriveOverlayFactory.ReleaseTimes, Process.store_self h2]
  | succ k ih =>
    intro p m h hj
    have hne : toULONG (InterlockedDecrement (toLong m)) ≠ 0 := by
      rw [InterlockedDecrement_toLong, toULONG_toLong]
      exact hj (m - 1) (by push_cast; omega) (by omega)
    have hstep := Release_eq_alive h hne
    simp only [InterlockedDecrement_toLong] at hstep
    simp only [DriveOverlayFactory.ReleaseTimes, hstep]
    rw [ih (p.store this { _referenceCount := toLong (m - 1) }) (m - 1)
      (Process.factory_store h)
      (fun j h1 h2 => hj j (by push_cast; omega) (by omega)),
      Process.store_store]
    congr 4
    push_cast
    ring

/-- C10, as stated, fails inside its own domain. A factory with count
`LONG_MAX` = 2147483647: `AddRef` leaves the count at -2147483648, not at
2147483648. A factory with count 1: after 4294967296 `AddRef` calls the 32-bit
count is 1 again, so the first of the 4294967296 `Release` calls returns 0 and
destroys the object. -/
theorem AddRef_wraps_at_LONG_MAX :
    (1 : Int) ≤ 2147483647 ∧
      DriveOverlayFactory.AddRef 0 (oneFactory 2147483647 1)
        = some (2147483648, oneFactory (-2147483648) 1) ∧
      (oneFactory (-2147483648) 1).factory 0 ≠ some { _referenceCount := 2147483647 + 1 } ∧
      DriveOverlayFactory.AddRefTimes 4294967296 0 (oneFactory 1 1) = some (oneFactory 1 1) ∧
      DriveOverlayFactory.Release 0 (oneFactory 1 1)
        = some (0, { dllReferenceCount := 0, heap := [none] }) ∧
      Process.factory { dllReferenceCount := 0, heap := [none] } 0 = none := by
  have hlive : (oneFactory 1 1).factory 0 = some { _referenceCount := toLong 1 } := by decide
  have h := AddRefTimes_wrap 0 4294967296 (oneFactory 1 1) 1 hlive
  have hw : toLong (1 + ((4294967296 : Nat) : Int)) = 1 := by decide
  have hself : (oneFactory 1 1).store 0 { _referenceCount := 1 } = oneFactory 1 1 := by decide
  rw [hw, hself] at h
  exact ⟨by decide, by decide, by decide, h, by decide, by decide⟩

/-- C10, amended: for a live factory whose `_referenceCount` is `n` with
`1 ≤ n ≤ LONG_MAX` (and `dllReferenceCount` inside the `long` range): `AddRef`
returns `n + 1`, and leaves the count at `n + 1` when `n < LONG_MAX` (at
`LONG_MAX` the stored count wraps); `Release` returns `n - 1`; it destroys the
factory, lowering `dllReferenceCount` by one, if and only if the returned count
is 0, and otherwise leaves the count at `n - 1` and `dllReferenceCount`
unchanged; `k` calls of `AddRef` followed by `k` calls of `Release` give back
the original state, the object never destroyed, whenever `n + k ≤ 4294967296`. -/
theorem AddRef_Release_spec (this : Nat) (p : Process) (n : Int)
    (hlive : p.factory this = some { _referenceCount := n })
    (h1 : 1 ≤ n) (hmax : n ≤ LONG_MAX)
    (hdmin : LONG_MIN < p.dllReferenceCount) (hdmax : p.dllReferenceCount ≤ LONG_MAX) :
    (DriveOverlayFactory.AddRef this p
        = some (n + 1, p.store this { _referenceCount := InterlockedIncrement n })) ∧
      (n < LONG_MAX →
        DriveOverlayFactory.AddRef this p
          = some (n + 1, p.store this { _referenceCount := n + 1 })) ∧
      (∃ p1, DriveOverlayFactory.Release this p = some (n - 1, p1) ∧
        (p1.factory this = none ↔ n - 1 = 0) ∧
        (n - 1 = 0 → p1 = { dllReferenceCount := p.dllReferenceCount - 1,
                            heap := p.heap.set this none }) ∧
        (n - 1 ≠ 0 → p1 = p.store this { _referenceCount := n - 1 })) ∧
      (∀ k : Nat, n + k ≤ 4294967296 →
        (DriveOverlayFactory.AddRefTimes k this p).bind
            (DriveOverlayFactory.ReleaseTimes k this) = some p) := by
  have hmin : LONG_MIN ≤ n := by unfold LONG_MIN; omega
  have hmin2 : LONG_MIN < n := by unfold LONG_MIN; omega
  have hret : toULONG (InterlockedIncrement n) = n + 1 := by
    unfold toULONG InterlockedIncrement toLong
    unfold LONG_MAX at hmax
    omega
  refine ⟨?_, ?_, ?_, ?_⟩
  · have h := AddRef_eq hlive
    simp only [hret] at h
    exact h
  · intro hlt
    have hinc : InterlockedIncrement n = n + 1 := InterlockedIncrement_eq hmin hlt
    have h := AddRef_eq hlive
    simp only [hret] at h
    simp only [hinc] at h
    exact h
  · have hdec : InterlockedDecrement n = n - 1 := InterlockedDecrement_eq hmin2 hmax
    have hu : toULONG (n - 1) = n - 1 := by
      unfold toULONG
      unfold LONG_MAX at hmax
      omega
    by_cases hz : n - 1 = 0
    · have h := Release_eq_destroy hlive (by simp only [hdec, hu]; exact hz)
      rw [InterlockedDecrement_eq hdmin hdmax] at h
      refine ⟨_, by rw [h, hz], ?_, fun _ => rfl, fun hne => absurd hz hne⟩
      constructor
      · intro _; exact hz
      · intro _; exact factory_set_none p this _
    · have h := Release_eq_alive hlive (by simp only [hdec, hu]; exact hz)
      simp only [hdec, hu] at h
      refine ⟨_, h, ?_, fun e => absurd e hz, fun _ => rfl⟩
      constructor
      · intro hnone
        rw [Process.factory_store hlive] at hnone
        simp at hnone
      · intro e; exact absurd e hz
  · intro k hk
    have hn : toLong n = n := toLong_eq_self hmin hmax
    have hlive2 : p.factory this = some { _referenceCount := toLong n } := by
      rw [hn]; exact hlive
    rw [AddRefTimes_wrap this k p n hlive2]
    simp only [Option.some_bind, Option.bind]
    have hback : toLong (n + (k : Int) - (k : Int)) = n := by
      rw [Int.add_sub_cancel]; exact hn
    rw [ReleaseTimes_wrap this k _ (n + k) (Process.factory_store hlive2)
      (fun j hj1 hj2 => by omega), Process.store_store, hback, Process.store_self hlive]

/-- Witness for C10: a factory with count 1 in a process with count 1. `AddRef`
returns 2, `Release` returns 0 and destroys it, and three `AddRef` calls followed
by three `Release` calls give back the same state. -/
theorem AddRef_Release_spec_witness :
    (oneFactory 1 1).factory 0 = some { _referenceCount := 1 } ∧
      DriveOverlayFactory.AddRef 0 (oneFactory 1 1) = some (1 + 1, oneFactory 2 1) ∧
      DriveOverlayFactory.Release 0 (oneFactory 1 1)
        = some (0, { dllReferenceCount := 0, heap := [none] }) ∧
      (DriveOverlayFactory.AddRefTimes 3 0 (oneFactory 1 1)).bind
          (DriveOverlayFactory.ReleaseTimes 3 0) = some (oneFactory 1 1) := by
  have h := AddRef_Release_spec 0 (oneFactory 1 1) 1 (by decide) (by decide) (by decide)
    (by decide) (by decide)
  exact ⟨by decide, h.2.1 (by decide), by decide, h.2.2.2 3 (by decide)⟩

/-! ## DllGetClassObject on the extension's own CLSID -/

theorem QueryInterface_match {this : Nat} {riid : GUID} {p : Process}
    {f : DriveOverlayFactory} (h : p.factory this = some f)
    (hr : riid = IID_IUnknown ∨ riid = IID_IClassFactory) :
    DriveOverlayFactory.QueryInterface this riid p
      = some (S_OK, some (Ptr.addr this),
          p.store this { _referenceCount := InterlockedIncrement f._referenceCount }) := by
  have hb : (IsEqualIID IID_IUnknown riid || IsEqualIID IID_IClassFactory riid) = true := by
    rcases hr with hr | hr <;> simp [IsEqualIID, hr]
  simp only [DriveOverlayFactory.QueryInterface, h, hb, if_true, AddRef_eq h]

theorem QueryInterface_other {this : Nat} {riid : GUID} {p : Process}
    {f : DriveOverlayFactory} (h : p.factory this = some f)
    (hr : ¬ (riid = IID_IUnknown ∨ riid = IID_IClassFactory)) :
    DriveOverlayFactory.QueryInterface this riid p
      = some (E_NOINTERFACE, some Ptr.null, p) := by
  have h1 : ¬ IID_IUnknown = riid := fun e => hr (Or.inl e.symm)
  have h2 : ¬ IID_IClassFactory = riid := fun e => hr (Or.inr e.symm)
  simp [DriveOverlayFactory.QueryInterface, h, IsEqualIID, h1, h2]

theorem construct_factory (path : String) (p : Process) :
    (DriveOverlayFactory.construct path p).2.factory p.heap.length
      = some { _referenceCount := 1 } := by
  rw [Process.factory_eq_some_iff]
  simp [DriveOverlayFactory.construct]

theorem set_append_last {α : Type} (l : List α) (a b : α) :
    (l ++ [a]).set l.length b = l ++ [b] := by
  induction l with
  | nil => rfl
  | cons x xs ih => simp [ih]

/-- C9: when `CLSIDFromString` succeeds with the requested CLSID, the module path
is obtained and `dllReferenceCount` is inside the `long` range, then for `riid`
equal to `IID_IUnknown` or `IID_IClassFactory` the call returns `S_OK`, `*ppv` is
the new factory, its `_referenceCount` is 1 and `dllReferenceCount` is one
higher (for a count below `LONG_MAX`); for every other `riid` it returns
`E_NOINTERFACE`, `*ppv` is `NULL`, the new factory's slot is freed and
`dllReferenceCount` is what it was. -/
theorem DllGetClassObject_matching (env : Env) (rclsid riid : GUID) (p : Process)
    (hok : (env.CLSIDFromString OVERLAY_GUID).1 = S_OK)
    (heq : (env.CLSIDFromString OVERLAY_GUID).2 = rclsid)
    (hmod : env.GetModuleFileName ≠ 0)
    (hmin : LONG_MIN ≤ p.dllReferenceCount) (hmax : p.dllReferenceCount ≤ LONG_MAX) :
    ((riid = IID_IUnknown ∨ riid = IID_IClassFactory) → p.dllReferenceCount < LONG_MAX →
        DllGetClassObject env rclsid riid p
          = some (S_OK, some (Ptr.addr p.heap.length),
              { dllReferenceCount := p.dllReferenceCount + 1,
                heap := p.heap ++ [some { _referenceCount := 1 }] })) ∧
      (¬ (riid = IID_IUnknown ∨ riid = IID_IClassFactory) →
        DllGetClassObject env rclsid riid p
          = some (E_NOINTERFACE, some Ptr.null,
              { dllReferenceCount := p.dllReferenceCount,
                heap := p.heap ++ [none] })) := by
  have hq := construct_factory env.szModule p
  have hunfold : DllGetClassObject env rclsid riid p
      = match DriveOverlayFactory.QueryInterface p.heap.length riid
            (DriveOverlayFactory.construct env.szModule p).2 with
        | none => none
        | some (hResult, ppv, p2) =>
          match DriveOverlayFactory.Release p.heap.length p2 with
          | none => none
          | some (_, p3) => some (hResult, ppv, p3) := by
    simp [DllGetClassObject, hok, heq, IsEqualCLSID, hmod, DriveOverlayFactory.construct]
  constructor
  · intro hr hlt
    have h21 : InterlockedIncrement 1 = 2 := by decide
    have h12 : InterlockedDecrement 2 = 1 := by decide
    have hqi := QueryInterface_match hq hr
    simp only [h21] at hqi
    have hrel := Release_eq_alive
      (Process.factory_store (g := { _referenceCount := 2 }) hq)
      (by simp only [h12]; decide)
    simp only [h12, Process.store_store, Process.store_self hq] at hrel
    rw [hunfold, hqi]
    simp only [hrel]
    simp [DriveOverlayFactory.construct, InterlockedIncrement_eq hmin hlt]
  · intro hr
    have h10 : toULONG (InterlockedDecrement 1) = 0 := by decide
    have hqi := QueryInterface_other hq hr
    have hrel := Release_eq_destroy hq h10
    rw [hunfold, hqi]
    simp only [hrel]
    simp [DriveOverlayFactory.construct, InterlockedDecrement_Increment hmin hmax,
      set_append_last]

/-- Witness for C9: from load time with every outside call succeeding, a request
for `IID_IClassFactory` yields a factory with count 1 and `dllReferenceCount` 1;
a request for another interface yields `E_NOINTERFACE` and count 0. -/
theorem DllGetClassObject_matching_witness :
    (sampleEnv.CLSIDFromString OVERLAY_GUID) = (S_OK, OVERLAY_CLSID) ∧
      sampleEnv.GetModuleFileName ≠ 0 ∧
      DllGetClassObject sampleEnv OVERLAY_CLSID IID_IClassFactory Process.initial
        = some (S_OK, some (Ptr.addr 0), oneFactory 1 1) ∧
      DllGetClassObject sampleEnv OVERLAY_CLSID OVERLAY_CLSID Process.initial
        = some (E_NOINTERFACE, some Ptr.null, { dllReferenceCount := 0, heap := [none] }) := by
  have h := DllGetClassObject_matching sampleEnv OVERLAY_CLSID IID_IClassFactory
    Process.initial (by decide) (by decide) (by decide) (by decide) (by decide)
  have h2 := DllGetClassObject_matching sampleEnv OVERLAY_CLSID OVERLAY_CLSID
    Process.initial (by decide) (by decide) (by decide) (by decide) (by decide)
  exact ⟨by decide, by decide, h.1 (Or.inr rfl) (by decide), h2.2 (by decide)⟩

end NuxeoDrive
